import Mathlib

/-!
Shallow embedding of the agent task-execution core of the
idolly-story-protocol repository (src/agent/agents/base_agent.py and
src/agent/agents/idol_agent.py), together with proofs about the claims of
its specification.

Modelling conventions:
* Python `dict` task records are modelled by the `Task` structure: one
  `Option String` field per key the code reads via `task.get(...)` /
  `task[...]`, plus an opaque `extra : Nat` standing for any further
  payload the code never reads (it only makes tasks distinguishable).
* The three external collaborators (Story-Protocol blockchain client,
  content generator, style mixer, IPFS client) and `random.choice` are
  out of scope per the spec; they are modelled by an `Env` of response
  oracles (`Except String _` results: `.error` is a raised exception).
  Every outgoing collaborator call is also recorded in a `List Call`
  trace, so call counts and call order can be stated.
* `datetime.utcnow()` is modelled by a `Nat` clock value supplied by the
  caller (the loop supplies one value per iteration).
* Raised Python exceptions are `Except.error msg`; a function that can
  raise after mutating `self` returns `(Except … , Agent, List Call)` so
  that partial mutations survive the raise, exactly as in Python.
-/

namespace IdollyAgent

/-- A Python task dict: the keys the agent code reads, each via
`task.get(key)` (hence `Option`), plus an opaque remainder. -/
structure Task where
  type? : Option String := none
  content_type? : Option String := none
  target_ip_id? : Option String := none
  style_ip_id? : Option String := none
  extra : Nat := 0
deriving DecidableEq, Repr

/-- Result of `StoryProtocolClient.mint_license_tokens`. -/
structure MintResult where
  license_token_ids : List String
deriving DecidableEq, Repr

/-- Result of `StoryProtocolClient.create_derivative_content`. -/
structure DerivResult where
  ip_id : String
deriving DecidableEq, Repr

/-- Result of `StoryProtocolClient.claim_royalties`. -/
structure ClaimResult where
  claimed_amount : Int
deriving DecidableEq, Repr

/-- Result of `ContentGenerator.create_content`: an ip id plus opaque
metadata (the agent only forwards the metadata to IPFS). -/
structure GenContent where
  ip_id : String
  metadata : Nat
deriving DecidableEq, Repr

/-- Result of `StyleMixer.apply_style`. -/
structure RemixContent where
  ip_id : String
  metadata : Nat
deriving DecidableEq, Repr

/-- Entry of `IdolAgent.licensed_ips`: `{ip_id, license_tokens,
licensed_at}`.  The `ip_id` is whatever value was passed for
`target_ip_id` (possibly Python `None`, hence `Option`). -/
structure LicenseEntry where
  ip_id : Option String
  license_tokens : List String
  licensed_at : Nat
deriving DecidableEq, Repr

/-- Entry of `IdolAgent.created_derivatives`: `{ip_id, content_type,
style_ip?, created_at}` (the metadata field stored by
`generate_content` is not read anywhere and is omitted). -/
structure DerivEntry where
  ip_id : String
  content_type : Option String
  style_ip : Option (Option String) := none
  created_at : Nat
deriving DecidableEq, Repr

/-- One outgoing collaborator call, for call-count / call-order claims. -/
inductive Call where
  | mint (ip_id : Option String) (amount : Nat) (receiver : String)
  | createContent (content_type : Option String)
  | applyStyle (base_ip_id : String) (style_ip_id : Option String)
  | upload (metadata : Nat)
  | createDeriv (parent_ip_id : String) (child_ip_id : String)
      (license_token_ids : Option (List String))
  | claim (ip_id : String) (child_ip_ids : List String)
deriving DecidableEq, Repr

/-- Oracles for the external collaborators (spec §6: out of scope,
specified only at their interface boundary) and for `random.choice`. -/
structure Env where
  mintLicense : Option String → Nat → String → Except String MintResult
  createContent : Option String → Except String GenContent
  applyStyle : String → Option String → Except String RemixContent
  uploadJson : Nat → Except String String
  createDerivative : String → String → Option (List String) →
      Except String DerivResult
  claimRoyalties : String → List String → Except String ClaimResult
  randomChoice : List String → String

/-- History entry: `{task, result, timestamp}` (base_agent.py lines
96-100). The result is stored below as `TaskResult`. -/
structure HistEntry (ρ : Type) where
  task : Task
  result : ρ
  timestamp : Nat
deriving DecidableEq, Repr

/-- Value returned by `claim_accumulated_royalties`: either the
short-circuit dict `{"status": "no_derivatives", "claimed": 0}` or the
collaborator's claim result passed through. -/
inductive RoyaltyOutcome where
  | noDerivatives (claimed : Nat)
  | result (r : ClaimResult)
deriving DecidableEq, Repr

/-- The successful payloads of `IdolAgent.execute_task`:
`{"status": "success", "content"/"license"/"remix"/"royalties": r}`. -/
inductive SuccessPayload where
  | content (r : DerivResult)
  | license (r : MintResult)
  | remix (r : DerivResult)
  | royalties (r : RoyaltyOutcome)
deriving DecidableEq, Repr

/-- Value returned by `IdolAgent.execute_task`: either a success record
or the error record `{"status": "error", "error": msg}`. -/
inductive TaskResult where
  | success (p : SuccessPayload)
  | error (msg : String)
deriving DecidableEq, Repr

/-- The whole agent state: the `BaseAgent` fields (base_agent.py
lines 28-35) flattened together with the `IdolAgent` fields
(idol_agent.py lines 44-59).  The queue is a FIFO list, head = front. -/
structure Agent where
  agent_id : String
  is_active : Bool := false
  created_at : Nat
  last_activity : Option Nat := none
  tasks_queue : List Task := []
  execution_history : List (HistEntry TaskResult) := []
  idol_id : String
  idol_name? : Option String := none
  content_types : List String := ["image", "text", "remix"]
  licensed_ips : List LicenseEntry := []
  created_derivatives : List DerivEntry := []
deriving DecidableEq, Repr

/-- Python `str(x)` of an optional string: `None` prints as `"None"`. -/
def pyStr : Option String → String
  | none => "None"
  | some s => s

/-- Python truthiness of an optional string (`if not content_type`):
`None` and the empty string are falsy. -/
def pyFalsy : Option String → Bool
  | none => true
  | some s => s = ""

/-- `BaseAgent.stop` (base_agent.py lines 69-72): clears the active
flag; nothing else. -/
def Agent.stop (a : Agent) : Agent := { a with is_active := false }

/-- `BaseAgent.start` (base_agent.py lines 60-67): sets the active flag
and the activity timestamp (the loop launch is modelled by `runLoop`). -/
def Agent.start (a : Agent) (now : Nat) : Agent :=
  { a with is_active := true, last_activity := some now }

/-- `BaseAgent.add_task` (base_agent.py lines 74-77): unconditionally
enqueues, then evaluates the f-string of the debug log, which reads
`task["type"]` — a `KeyError` when the key is absent.  The second
component is the raised exception, if any. -/
def Agent.add_task (a : Agent) (task : Task) : Agent × Option String :=
  let a' := { a with tasks_queue := a.tasks_queue ++ [task] }
  match task.type? with
  | none => (a', some "KeyError: type")
  | some _ => (a', none)

/-- `BaseAgent.get_metrics` (base_agent.py lines 112-122), a pure read. -/
structure Metrics where
  agent_id : String
  is_active : Bool
  created_at : Nat
  last_activity : Option Nat
  tasks_in_queue : Nat
  tasks_executed : Nat
  uptime_seconds : Nat
deriving DecidableEq, Repr

def Agent.get_metrics (a : Agent) (now : Nat) : Metrics :=
  { agent_id := a.agent_id
    is_active := a.is_active
    created_at := a.created_at
    last_activity := a.last_activity
    tasks_in_queue := a.tasks_queue.length
    tasks_executed := a.execution_history.length
    uptime_seconds := now - a.created_at }

/-- `IdolAgent.license_external_ip` (idol_agent.py lines 153-179):
mint one license token to the idol's IP account, then append the
licensed-IP entry.  On a raise from the client the entry is not
appended. -/
def license_external_ip (env : Env) (now : Nat) (a : Agent)
    (target_ip_id : Option String) :
    Except String MintResult × Agent × List Call :=
  let trace := [Call.mint target_ip_id 1 a.idol_id]
  match env.mintLicense target_ip_id 1 a.idol_id with
  | .error e => (.error e, a, trace)
  | .ok r =>
      (.ok r,
       { a with licensed_ips :=
           a.licensed_ips ++ [⟨target_ip_id, r.license_token_ids, now⟩] },
       trace)

/-- `IdolAgent.claim_accumulated_royalties` (idol_agent.py lines
248-261): short-circuit on an empty derivative ledger, otherwise one
royalty claim over all tracked derivative ip ids.
`(noDerivatives, result)` mirrors the two possible return dicts. -/
def claim_accumulated_royalties (env : Env) (a : Agent) :
    Except String RoyaltyOutcome × Agent × List Call :=
  if a.created_derivatives = [] then
    (.ok (.noDerivatives 0), a, [])
  else
    let child_ip_ids := a.created_derivatives.map (·.ip_id)
    match env.claimRoyalties a.idol_id child_ip_ids with
    | .error e => (.error e, a, [Call.claim a.idol_id child_ip_ids])
    | .ok r => (.ok (.result r), a, [Call.claim a.idol_id child_ip_ids])

/-- First half of `IdolAgent.create_remix` (idol_agent.py lines
193-203): reuse the first license token of the first `licensed_ips`
entry matching the style IP, or run the full `license_external_ip`
flow first.  Indexing `license_token_ids[0]` / `license_tokens[0]` on
an empty list is an `IndexError`. -/
def remix_license_step (env : Env) (now : Nat) (a : Agent)
    (style_ip_id : Option String) :
    Except String String × Agent × List Call :=
  match a.licensed_ips.find? (fun lic => lic.ip_id = style_ip_id) with
  | none =>
      match license_external_ip env now a style_ip_id with
      | (.error e, a', cs) => (.error e, a', cs)
      | (.ok r, a', cs) =>
          match r.license_token_ids with
          | [] => (.error "IndexError: list index out of range", a', cs)
          | t :: _ => (.ok t, a', cs)
  | some lic =>
      match lic.license_tokens with
      | [] => (.error "IndexError: list index out of range", a, [])
      | t :: _ => (.ok t, a, [])

/-- Second half of `IdolAgent.create_remix` (idol_agent.py lines
205-237): apply the style, upload the remix metadata, register the
derivative with the obtained license token, and append to
`created_derivatives`. -/
def remix_apply_step (env : Env) (now : Nat) (a₁ : Agent)
    (style_ip_id : Option String) (license_token_id : String) :
    Except String DerivResult × Agent × List Call :=
  let cs := [Call.applyStyle a₁.idol_id style_ip_id]
  match env.applyStyle a₁.idol_id style_ip_id with
  | .error e => (.error e, a₁, cs)
  | .ok remix_content =>
      let cs := cs ++ [Call.upload remix_content.metadata]
      match env.uploadJson remix_content.metadata with
      | .error e => (.error e, a₁, cs)
      | .ok _ipfs_hash =>
          let cs := cs ++ [Call.createDeriv a₁.idol_id remix_content.ip_id
                            (some [license_token_id])]
          match env.createDerivative a₁.idol_id remix_content.ip_id
              (some [license_token_id]) with
          | .error e => (.error e, a₁, cs)
          | .ok derivative_result =>
              (.ok derivative_result,
               { a₁ with created_derivatives :=
                   a₁.created_derivatives ++
                     [⟨derivative_result.ip_id, some "remix",
                       some style_ip_id, now⟩] },
               cs)

/-- `IdolAgent.create_remix` (idol_agent.py lines 181-237): the license
step followed by the style-apply / upload / register step. -/
def create_remix (env : Env) (now : Nat) (a : Agent)
    (style_ip_id : Option String) :
    Except String DerivResult × Agent × List Call :=
  match remix_license_step env now a style_ip_id with
  | (.error e, a₁, cs) => (.error e, a₁, cs)
  | (.ok license_token_id, a₁, cs) =>
      match remix_apply_step env now a₁ style_ip_id license_token_id with
      | (r, a₂, cs') => (r, a₂, cs ++ cs')

/-- `IdolAgent.generate_content` (idol_agent.py lines 94-151): choose a
content type (uniformly at random when the argument is falsy —
`random.choice` raises `IndexError` on an empty type list), generate,
upload metadata, register as a derivative of the idol with default
license terms, append to `created_derivatives`. -/
def generate_content (env : Env) (now : Nat) (a : Agent)
    (content_type₀ : Option String) :
    Except String DerivResult × Agent × List Call :=
  let pick : Except String (Option String) :=
    if pyFalsy content_type₀ then
      match a.content_types with
      | [] => .error "IndexError: Cannot choose from an empty sequence"
      | _ => .ok (some (env.randomChoice a.content_types))
    else .ok content_type₀
  match pick with
  | .error e => (.error e, a, [])
  | .ok content_type =>
      let cs := [Call.createContent content_type]
      match env.createContent content_type with
      | .error e => (.error e, a, cs)
      | .ok generated_content =>
          let cs := cs ++ [Call.upload generated_content.metadata]
          match env.uploadJson generated_content.metadata with
          | .error e => (.error e, a, cs)
          | .ok _ipfs_hash =>
              let cs := cs ++ [Call.createDeriv a.idol_id
                                generated_content.ip_id none]
              match env.createDerivative a.idol_id generated_content.ip_id
                  none with
              | .error e => (.error e, a, cs)
              | .ok derivative_ip =>
                  (.ok derivative_ip,
                   { a with created_derivatives :=
                       a.created_derivatives ++
                         [⟨derivative_ip.ip_id, content_type, none, now⟩] },
                   cs)

/-- The `try` body of `IdolAgent.execute_task` (idol_agent.py lines
63-75): dispatch on `task.get("type")`; unknown types raise
`ValueError(f"Unknown task type: {task_type}")`. -/
def execute_task_body (env : Env) (now : Nat) (a : Agent) (task : Task) :
    Except String SuccessPayload × Agent × List Call :=
  let task_type := task.type?
  if task_type = some "generate_content" then
    match generate_content env now a task.content_type? with
    | (.error e, a', cs) => (.error e, a', cs)
    | (.ok r, a', cs) => (.ok (.content r), a', cs)
  else if task_type = some "license_ip" then
    match license_external_ip env now a task.target_ip_id? with
    | (.error e, a', cs) => (.error e, a', cs)
    | (.ok r, a', cs) => (.ok (.license r), a', cs)
  else if task_type = some "create_remix" then
    match create_remix env now a task.style_ip_id? with
    | (.error e, a', cs) => (.error e, a', cs)
    | (.ok r, a', cs) => (.ok (.remix r), a', cs)
  else if task_type = some "claim_royalties" then
    match claim_accumulated_royalties env a with
    | (.error e, a', cs) => (.error e, a', cs)
    | (.ok r, a', cs) => (.ok (.royalties r), a', cs)
  else
    (.error ("Unknown task type: " ++ pyStr task_type), a, [])

/-- `IdolAgent.execute_task` (idol_agent.py lines 61-79): the generic
`except Exception` handler turns any raise from the body into
`{"status": "error", "error": str(e)}`; mutations made before the raise
survive (Python `self` mutation). -/
def execute_task (env : Env) (now : Nat) (a : Agent) (task : Task) :
    TaskResult × Agent × List Call :=
  match execute_task_body env now a task with
  | (.error e, a', cs) => (.error e, a', cs)
  | (.ok p, a', cs) => (.success p, a', cs)

/-- Python list slicing `h[-100:]`: the last `n` elements. -/
def lastN (n : Nat) (l : List α) : List α := l.drop (l.length - n)

/-- One iteration of `BaseAgent._task_execution_loop` (base_agent.py
lines 81-110) in which the dequeue either times out (empty queue:
`continue`) or yields the front task, which is executed, the activity
timestamp updated, the history entry appended and the history trimmed
to its last 100 entries. -/
def loopStep (env : Env) (now : Nat) (a : Agent) : Agent × List Call :=
  match a.tasks_queue with
  | [] => (a, [])
  | task :: rest =>
      let (result, a₁, cs) :=
        execute_task env now { a with tasks_queue := rest } task
      let a₂ := { a₁ with last_activity := some now }
      let hist := a₂.execution_history ++ [⟨task, result, now⟩]
      let hist := if hist.length > 100 then hist.drop (hist.length - 100)
                  else hist
      ({ a₂ with execution_history := hist }, cs)

/-- `while self.is_active:` — run the loop for one iteration per
supplied timestamp, exiting as soon as the active flag is observed
false at the top of an iteration. -/
def runLoop (env : Env) : List Nat → Agent → Agent × List Call
  | [], a => (a, [])
  | now :: ts, a =>
      if a.is_active then
        let (a₁, cs) := loopStep env now a
        let (a₂, cs') := runLoop env ts a₁
        (a₂, cs ++ cs')
      else (a, [])

/-- Number of `mint_license_tokens` calls in a trace. -/
def countMint (cs : List Call) : Nat :=
  (cs.filter fun c => match c with
    | .mint _ _ _ => true
    | _ => false).length

/-- Folding `add_task` over a task list (the producers of spec 4.1). -/
def enqueueAll (a : Agent) (ts : List Task) : Agent :=
  ts.foldl (fun b t => (b.add_task t).1) a

/-! ### Concrete fixtures for witnesses and counterexamples -/

/-- A collaborator environment in which every external call fails. -/
def downEnv : Env :=
  { mintLicense := fun _ _ _ => .error "service unavailable"
    createContent := fun _ => .error "service unavailable"
    applyStyle := fun _ _ => .error "service unavailable"
    uploadJson := fun _ => .error "service unavailable"
    createDerivative := fun _ _ _ => .error "service unavailable"
    claimRoyalties := fun _ _ => .error "service unavailable"
    randomChoice := fun l => l.headD "image" }

/-- A collaborator environment in which every external call succeeds. -/
def goodEnv : Env :=
  { mintLicense := fun _ _ _ => .ok ⟨["tok-1", "tok-2"]⟩
    createContent := fun _ => .ok ⟨"ip-gen", 7⟩
    applyStyle := fun _ _ => .ok ⟨"ip-remix", 9⟩
    uploadJson := fun _ => .ok "QmHash"
    createDerivative := fun _ _ _ => .ok ⟨"ip-deriv"⟩
    claimRoyalties := fun _ _ => .ok ⟨5⟩
    randomChoice := fun l => l.headD "image" }

/-- Environment where the mint succeeds but the style mixer is down. -/
def mintOnlyEnv : Env :=
  { goodEnv with
    mintLicense := fun _ _ _ => .ok ⟨["tok-1"]⟩
    applyStyle := fun _ _ => .error "style service down" }

/-- A freshly constructed idol agent. -/
def agent0 : Agent :=
  { agent_id := "idol-ip-1", created_at := 0, idol_id := "ip-1" }

/-- The agent after `license_external_ip` succeeded for style-7. -/
def licAgent : Agent :=
  { agent0 with licensed_ips := [⟨some "style-7", ["tok-9"], 0⟩] }

/-- The agent with one tracked derivative work. -/
def derivAgent : Agent :=
  { agent0 with created_derivatives := [⟨"d-1", some "image", none, 0⟩] }

/-- A task of an unrecognized type, distinguishable via `extra`. -/
def noopTask (i : Nat) : Task := { type? := some "noop", extra := i }

def tasks101 : List Task := (List.range 101).map noopTask

def times101 : List Nat := List.range 101

def licenseTask : Task :=
  { type? := some "license_ip", target_ip_id? := some "ext-1" }

def remixTask : Task :=
  { type? := some "create_remix", style_ip_id? := some "style-7" }

/-- The fresh agent, started, with the given initial queue. -/
def activeAgent (ts : List Task) : Agent :=
  { agent0 with is_active := true, tasks_queue := ts }

/-! ### Helper lemmas -/

theorem lastN_eq_self {l : List α} (h : l.length ≤ n) : lastN n l = l := by
  simp [lastN, Nat.sub_eq_zero_of_le h]

theorem length_lastN (n : Nat) (l : List α) :
    (lastN n l).length = min n l.length := by
  simp [lastN]
  omega

theorem trim_eq_lastN (l : List α) :
    (if l.length > 100 then l.drop (l.length - 100) else l) = lastN 100 l := by
  by_cases h : l.length > 100
  · simp [h, lastN]
  · rw [if_neg h, lastN_eq_self (by omega)]

theorem map_lastN (f : α → β) (n : Nat) (l : List α) :
    (lastN n l).map f = lastN n (l.map f) := by
  simp [lastN, List.map_drop]

theorem lastN_absorb (n : Nat) (xs ys : List α) :
    lastN n (lastN n xs ++ ys) = lastN n (xs ++ ys) := by
  unfold lastN
  rw [List.drop_append_eq_append_drop, List.drop_append_eq_append_drop,
    List.drop_drop]
  have hxl : (List.drop (xs.length - n) xs).length = xs.length - (xs.length - n) :=
    List.length_drop _ _
  congr 1
  · congr 1
    simp only [List.length_append, List.length_drop]
    omega
  · congr 1
    simp only [List.length_append, List.length_drop]
    omega

/-- `license_external_ip` leaves the base-agent fields untouched. -/
theorem license_external_ip_preserves (env : Env) (now : Nat) (a : Agent)
    (t : Option String) :
    ((license_external_ip env now a t).2.1.agent_id = a.agent_id)
    ∧ ((license_external_ip env now a t).2.1.is_active = a.is_active)
    ∧ ((license_external_ip env now a t).2.1.created_at = a.created_at)
    ∧ ((license_external_ip env now a t).2.1.last_activity = a.last_activity)
    ∧ ((license_external_ip env now a t).2.1.tasks_queue = a.tasks_queue)
    ∧ ((license_external_ip env now a t).2.1.execution_history
        = a.execution_history)
    ∧ ((license_external_ip env now a t).2.1.idol_id = a.idol_id) := by
  cases h : env.mintLicense t 1 a.idol_id <;>
    simp [license_external_ip, h]

/-- `claim_accumulated_royalties` leaves the agent state untouched. -/
theorem claim_accumulated_royalties_state (env : Env) (a : Agent) :
    (claim_accumulated_royalties env a).2.1 = a := by
  unfold claim_accumulated_royalties
  by_cases h : a.created_derivatives = []
  · simp [h]
  · cases hc : env.claimRoyalties a.idol_id (a.created_derivatives.map (·.ip_id)) <;>
      simp [h, hc]

/-- `remix_apply_step` leaves the base-agent fields untouched. -/
theorem remix_apply_step_preserves (env : Env) (now : Nat) (a : Agent)
    (s : Option String) (t : String) :
    ((remix_apply_step env now a s t).2.1.agent_id = a.agent_id)
    ∧ ((remix_apply_step env now a s t).2.1.is_active = a.is_active)
    ∧ ((remix_apply_step env now a s t).2.1.created_at = a.created_at)
    ∧ ((remix_apply_step env now a s t).2.1.last_activity = a.last_activity)
    ∧ ((remix_apply_step env now a s t).2.1.tasks_queue = a.tasks_queue)
    ∧ ((remix_apply_step env now a s t).2.1.execution_history
        = a.execution_history)
    ∧ ((remix_apply_step env now a s t).2.1.idol_id = a.idol_id) := by
  unfold remix_apply_step
  cases ha : env.applyStyle a.idol_id s with
  | error e => simp [ha]
  | ok rc =>
    cases hu : env.uploadJson rc.metadata with
    | error e => simp [ha, hu]
    | ok ih =>
      cases hd : env.createDerivative a.idol_id rc.ip_id (some [t]) with
      | error e => simp [ha, hu, hd]
      | ok d => simp [ha, hu, hd]

/-- `remix_license_step` leaves the base-agent fields untouched. -/
theorem remix_license_step_preserves (env : Env) (now : Nat) (a : Agent)
    (s : Option String) :
    ((remix_license_step env now a s).2.1.agent_id = a.agent_id)
    ∧ ((remix_license_step env now a s).2.1.is_active = a.is_active)
    ∧ ((remix_license_step env now a s).2.1.created_at = a.created_at)
    ∧ ((remix_license_step env now a s).2.1.last_activity = a.last_activity)
    ∧ ((remix_license_step env now a s).2.1.tasks_queue = a.tasks_queue)
    ∧ ((remix_license_step env now a s).2.1.execution_history
        = a.execution_history)
    ∧ ((remix_license_step env now a s).2.1.idol_id = a.idol_id) := by
  unfold remix_license_step
  cases hf : a.licensed_ips.find? (fun lic => lic.ip_id = s) with
  | none =>
    have hp := license_external_ip_preserves env now a s
    rcases hm : license_external_ip env now a s with ⟨res, a', cs⟩
    rw [hm] at hp
    cases res with
    | error e => simp_all
    | ok r =>
      cases hr : r.license_token_ids with
      | nil => simp_all
      | cons t ts => simp_all
  | some lic =>
    cases hr : lic.license_tokens with
    | nil => simp [hf, hr]
    | cons t ts => simp [hf, hr]

/-- `create_remix` leaves the base-agent fields untouched. -/
theorem create_remix_preserves (env : Env) (now : Nat) (a : Agent)
    (s : Option String) :
    ((create_remix env now a s).2.1.agent_id = a.agent_id)
    ∧ ((create_remix env now a s).2.1.is_active = a.is_active)
    ∧ ((create_remix env now a s).2.1.created_at = a.created_at)
    ∧ ((create_remix env now a s).2.1.last_activity = a.last_activity)
    ∧ ((create_remix env now a s).2.1.tasks_queue = a.tasks_queue)
    ∧ ((create_remix env now a s).2.1.execution_history = a.execution_history)
    ∧ ((create_remix env now a s).2.1.idol_id = a.idol_id) := by
  unfold create_remix
  have hp := remix_license_step_preserves env now a s
  rcases hl : remix_license_step env now a s with ⟨res, a₁, cs⟩
  rw [hl] at hp
  cases res with
  | error e => simp_all
  | ok t =>
    have hp2 := remix_apply_step_preserves env now a₁ s t
    rcases hs : remix_apply_step env now a₁ s t with ⟨res₂, a₂, cs₂⟩
    rw [hs] at hp2
    simp_all

/-- `generate_content` leaves the base-agent fields untouched. -/
theorem generate_content_preserves (env : Env) (now : Nat) (a : Agent)
    (c : Option String) :
    ((generate_content env now a c).2.1.agent_id = a.agent_id)
    ∧ ((generate_content env now a c).2.1.is_active = a.is_active)
    ∧ ((generate_content env now a c).2.1.created_at = a.created_at)
    ∧ ((generate_content env now a c).2.1.last_activity = a.last_activity)
    ∧ ((generate_content env now a c).2.1.tasks_queue = a.tasks_queue)
    ∧ ((generate_content env now a c).2.1.execution_history
        = a.execution_history)
    ∧ ((generate_content env now a c).2.1.idol_id = a.idol_id) := by
  unfold generate_content
  by_cases hf : pyFalsy c = true
  case neg =>
    simp only [hf]
    cases hc : env.createContent c with
    | error e => simp [hf, hc]
    | ok g =>
      cases hu : env.uploadJson g.metadata with
      | error e => simp [hf, hc, hu]
      | ok ih =>
        cases hd : env.createDerivative a.idol_id g.ip_id none with
        | error e => simp [hf, hc, hu, hd]
        | ok d => simp [hf, hc, hu, hd]
  case pos =>
    cases hts : a.content_types with
    | nil => simp [hf, hts]
    | cons c₀ cs₀ =>
      cases hc : env.createContent (some (env.randomChoice (c₀ :: cs₀))) with
      | error e => simp [hf, hts, hc]
      | ok g =>
        cases hu : env.uploadJson g.metadata with
        | error e => simp [hf, hts, hc, hu]
        | ok ih =>
          cases hd : env.createDerivative a.idol_id g.ip_id none with
          | error e => simp [hf, hts, hc, hu, hd]
          | ok d => simp [hf, hts, hc, hu, hd]

/-- `execute_task` leaves the base-agent fields untouched: only the
domain ledgers (`licensed_ips`, `created_derivatives`) change. -/
theorem execute_task_preserves (env : Env) (now : Nat) (a : Agent)
    (task : Task) :
    ((execute_task env now a task).2.1.agent_id = a.agent_id)
    ∧ ((execute_task env now a task).2.1.is_active = a.is_active)
    ∧ ((execute_task env now a task).2.1.created_at = a.created_at)
    ∧ ((execute_task env now a task).2.1.last_activity = a.last_activity)
    ∧ ((execute_task env now a task).2.1.tasks_queue = a.tasks_queue)
    ∧ ((execute_task env now a task).2.1.execution_history
        = a.execution_history)
    ∧ ((execute_task env now a task).2.1.idol_id = a.idol_id) := by
  unfold execute_task execute_task_body
  by_cases h1 : task.type? = some "generate_content"
  · have hp := generate_content_preserves env now a task.content_type?
    rcases hg : generate_content env now a task.content_type? with ⟨res, a', cs⟩
    rw [hg] at hp
    cases res <;> simp_all
  by_cases h2 : task.type? = some "license_ip"
  · have hp := license_external_ip_preserves env now a task.target_ip_id?
    rcases hg : license_external_ip env now a task.target_ip_id? with ⟨res, a', cs⟩
    rw [hg] at hp
    cases res <;> simp_all
  by_cases h3 : task.type? = some "create_remix"
  · have hp := create_remix_preserves env now a task.style_ip_id?
    rcases hg : create_remix env now a task.style_ip_id? with ⟨res, a', cs⟩
    rw [hg] at hp
    cases res <;> simp_all
  by_cases h4 : task.type? = some "claim_royalties"
  · have hp := claim_accumulated_royalties_state env a
    rcases hg : claim_accumulated_royalties env a with ⟨res, a', cs⟩
    rw [hg] at hp
    cases res <;> simp_all
  · simp [h1, h2, h3, h4]

/-- `add_task` updates the queue identically whether or not the debug
log raises. -/
theorem add_task_fst (a : Agent) (task : Task) :
    (a.add_task task).1 = { a with tasks_queue := a.tasks_queue ++ [task] } := by
  cases h : task.type? <;> simp [Agent.add_task, h]

theorem enqueueAll_spec : ∀ (ts : List Task) (a : Agent),
    ((enqueueAll a ts).tasks_queue = a.tasks_queue ++ ts)
    ∧ ((enqueueAll a ts).is_active = a.is_active)
    ∧ ((enqueueAll a ts).execution_history = a.execution_history)
    ∧ ((enqueueAll a ts).created_at = a.created_at)
    ∧ ((enqueueAll a ts).agent_id = a.agent_id)
    ∧ ((enqueueAll a ts).idol_id = a.idol_id)
    ∧ ((enqueueAll a ts).last_activity = a.last_activity)
  | [], a => by simp [enqueueAll]
  | t :: ts, a => by
    have ih := enqueueAll_spec ts { a with tasks_queue := a.tasks_queue ++ [t] }
    simp only [enqueueAll, List.foldl_cons, add_task_fst] at *
    simpa using ih

/-- A dequeue that times out (`asyncio.TimeoutError`) leaves the agent
unchanged: the loop just re-checks the active flag. -/
theorem loopStep_empty (env : Env) (now : Nat) (a : Agent)
    (h : a.tasks_queue = []) : loopStep env now a = (a, []) := by
  simp [loopStep, h]

/-- One loop iteration on a non-empty queue: the front task is
dequeued, executed, the activity timestamp set, and the history entry
appended with trimming to the last 100 entries. -/
theorem loopStep_cons (env : Env) (now : Nat) (a : Agent)
    (task : Task) (rest : List Task) (h : a.tasks_queue = task :: rest) :
    ((loopStep env now a).1.tasks_queue = rest)
    ∧ ((loopStep env now a).1.is_active = a.is_active)
    ∧ ((loopStep env now a).1.agent_id = a.agent_id)
    ∧ ((loopStep env now a).1.created_at = a.created_at)
    ∧ ((loopStep env now a).1.last_activity = some now)
    ∧ ((loopStep env now a).1.execution_history
        = lastN 100 (a.execution_history ++
            [⟨task, (execute_task env now { a with tasks_queue := rest } task).1,
              now⟩]))
    ∧ ((loopStep env now a).1.idol_id = a.idol_id)
    ∧ ((loopStep env now a).2
        = (execute_task env now { a with tasks_queue := rest } task).2.2) := by
  have hp := execute_task_preserves env now { a with tasks_queue := rest } task
  rcases hE : execute_task env now { a with tasks_queue := rest } task
    with ⟨res, a₁, cs⟩
  rw [hE] at hp
  simp only [loopStep, h, hE]
  obtain ⟨p1, p2, p3, p4, p5, p6, p7⟩ := hp
  simp only at p1 p2 p3 p4 p5 p6 p7
  simp [p1, p2, p3, p4, p5, p6, p7, trim_eq_lastN]
  have ht := trim_eq_lastN
    (a.execution_history ++ [(⟨task, res, now⟩ : HistEntry TaskResult)])
  simpa using ht

/-- `loopStep` never changes the active flag (the loop cannot stop
itself). -/
theorem loopStep_is_active (env : Env) (now : Nat) (a : Agent) :
    (loopStep env now a).1.is_active = a.is_active := by
  cases h : a.tasks_queue with
  | nil => rw [loopStep_empty env now a h]
  | cons task rest => exact (loopStep_cons env now a task rest h).2.1

/-- Once the active flag is false, the loop exits at once: no dequeue,
no collaborator call, no state change. -/
theorem runLoop_inactive (env : Env) (ts : List Nat) (a : Agent)
    (h : a.is_active = false) : runLoop env ts a = (a, []) := by
  cases ts <;> simp [runLoop, h]

/-- While active, the loop at each timestamp steps once and recurses. -/
theorem runLoop_active (env : Env) (now : Nat) (ts : List Nat) (a : Agent)
    (h : a.is_active = true) :
    runLoop env (now :: ts) a
      = ((runLoop env ts (loopStep env now a).1).1,
         (loopStep env now a).2 ++ (runLoop env ts (loopStep env now a).1).2) := by
  simp [runLoop, h]

/-- The loop never changes the active flag. -/
theorem runLoop_is_active (env : Env) : ∀ (ts : List Nat) (a : Agent),
    (runLoop env ts a).1.is_active = a.is_active
  | [], a => by simp [runLoop]
  | now :: ts, a => by
    by_cases h : a.is_active = true
    · rw [runLoop_active env now ts a h]
      simp only
      rw [runLoop_is_active env ts (loopStep env now a).1,
        loopStep_is_active]
    · rw [runLoop_inactive env _ a (by simpa using h)]

/-- Draining: given one loop iteration per initially queued task, the
queue empties and the history ends up holding the last 100 of the old
history followed by one entry per queued task, in FIFO order. -/
theorem runLoop_drain (env : Env) : ∀ (times : List Nat) (a : Agent),
    a.is_active = true → a.execution_history.length ≤ 100 →
    times.length = a.tasks_queue.length →
    ((runLoop env times a).1.tasks_queue = [])
    ∧ ((runLoop env times a).1.is_active = true)
    ∧ ((runLoop env times a).1.execution_history.map (·.task)
        = lastN 100 (a.execution_history.map (·.task) ++ a.tasks_queue))
  | [], a => by
    intro hact hlen hq
    have hq' : a.tasks_queue = [] := by
      cases h : a.tasks_queue with
      | nil => rfl
      | cons t r => rw [h] at hq; simp at hq
    rw [runLoop]
    refine ⟨hq', hact, ?_⟩
    rw [hq', List.append_nil, lastN_eq_self (by simpa using hlen)]
  | now :: ts, a => by
    intro hact hlen hq
    cases hqa : a.tasks_queue with
    | nil => rw [hqa] at hq; simp at hq
    | cons task rest =>
      obtain ⟨s1, s2, s3, s4, s5, s6, s7, s8⟩ := loopStep_cons env now a task rest hqa
      have hlen₁ : (loopStep env now a).1.execution_history.length ≤ 100 := by
        rw [s6, length_lastN]
        omega
      have hq₁ : ts.length = (loopStep env now a).1.tasks_queue.length := by
        rw [s1]
        rw [hqa] at hq
        simpa using hq
      have ih := runLoop_drain env ts (loopStep env now a).1
        (by rw [s2, hact]) hlen₁ hq₁
      rw [runLoop_active env now ts a hact]
      refine ⟨ih.1, ih.2.1, ?_⟩
      rw [ih.2.2, s1, s6, map_lastN]
      rw [List.map_append]
      simp only [List.map_cons, List.map_nil]
      rw [lastN_absorb]
      simp

theorem countMint_append (cs cs' : List Call) :
    countMint (cs ++ cs') = countMint cs + countMint cs' := by
  simp [countMint, List.filter_append]

/-- The apply/upload/register half of `create_remix` never mints, starts
with the style-apply call, and registers (if it gets that far) with
exactly the supplied license token. -/
theorem remix_apply_step_trace (env : Env) (now : Nat) (a : Agent)
    (s : Option String) (t : String) :
    (countMint (remix_apply_step env now a s t).2.2 = 0)
    ∧ ((remix_apply_step env now a s t).2.2.head?
        = some (.applyStyle a.idol_id s))
    ∧ (∀ p c toks, Call.createDeriv p c toks ∈ (remix_apply_step env now a s t).2.2
        → toks = some [t]) := by
  unfold remix_apply_step
  cases ha : env.applyStyle a.idol_id s with
  | error e => simp [countMint, ha]
  | ok rc =>
    cases hu : env.uploadJson rc.metadata with
    | error e => simp [countMint, ha, hu]
    | ok ih =>
      cases hd : env.createDerivative a.idol_id rc.ip_id (some [t]) with
      | error e =>
        refine ⟨by simp [countMint, ha, hu, hd], by simp [ha, hu, hd], ?_⟩
        intro p c toks hm
        simp [ha, hu, hd] at hm
        obtain ⟨_, _, h⟩ := hm
        exact h
      | ok d =>
        refine ⟨by simp [countMint, ha, hu, hd], by simp [ha, hu, hd], ?_⟩
        intro p c toks hm
        simp [ha, hu, hd] at hm
        obtain ⟨_, _, h⟩ := hm
        exact h

/-- License step when a matching licence entry exists: no collaborator
call at all, the first license token of the entry is reused. -/
theorem remix_license_step_found (env : Env) (now : Nat) (a : Agent)
    (s : Option String) (lic : LicenseEntry)
    (hf : a.licensed_ips.find? (fun l => l.ip_id = s) = some lic) :
    remix_license_step env now a s
      = (match lic.license_tokens with
         | [] => (.error "IndexError: list index out of range", a, [])
         | t :: _ => (.ok t, a, [])) := by
  cases hr : lic.license_tokens with
  | nil => simp [remix_license_step, hf, hr]
  | cons t ts => simp [remix_license_step, hf, hr]

/-- License step when no matching entry exists: exactly one mint call,
and on success the minted entry is appended to `licensed_ips`. -/
theorem remix_license_step_not_found (env : Env) (now : Nat) (a : Agent)
    (s : Option String)
    (hf : a.licensed_ips.find? (fun l => l.ip_id = s) = none) :
    ((remix_license_step env now a s).2.2 = [Call.mint s 1 a.idol_id])
    ∧ (∀ e, env.mintLicense s 1 a.idol_id = .error e →
        remix_license_step env now a s = (.error e, a, [Call.mint s 1 a.idol_id]))
    ∧ (∀ r, env.mintLicense s 1 a.idol_id = .ok r →
        (remix_license_step env now a s).2.1
          = { a with licensed_ips :=
              a.licensed_ips ++ [⟨s, r.license_token_ids, now⟩] }
        ∧ ∀ t ts, r.license_token_ids = t :: ts →
            (remix_license_step env now a s).1 = .ok t) := by
  cases hm : env.mintLicense s 1 a.idol_id with
  | error e =>
    refine ⟨by simp [remix_license_step, license_external_ip, hf, hm], ?_, ?_⟩
    · intro e' he
      injection he with he'
      subst he'
      simp [remix_license_step, license_external_ip, hf, hm]
    · intro r hr
      simp at hr
  | ok r =>
    have hstep : remix_license_step env now a s
        = (match r.license_token_ids with
           | [] => (.error "IndexError: list index out of range",
                    { a with licensed_ips :=
                        a.licensed_ips ++ [⟨s, r.license_token_ids, now⟩] },
                    [Call.mint s 1 a.idol_id])
           | t :: _ => (.ok t,
                    { a with licensed_ips :=
                        a.licensed_ips ++ [⟨s, r.license_token_ids, now⟩] },
                    [Call.mint s 1 a.idol_id])) := by
      cases hr : r.license_token_ids with
      | nil => simp [remix_license_step, license_external_ip, hf, hm, hr]
      | cons t ts => simp [remix_license_step, license_external_ip, hf, hm, hr]
    refine ⟨?_, ?_, ?_⟩
    · cases hr : r.license_token_ids <;> simp [hstep, hr]
    · intro e he
      simp at he
    · intro r' hr'
      injection hr' with hr''
      subst hr''
      constructor
      · cases hr : r.license_token_ids <;> simp [hstep, hr]
      · intro t ts hts
        simp [hstep, hts]

/-- `create_remix` with a pre-existing licence never mints. -/
theorem create_remix_countMint_found (env : Env) (now : Nat) (a : Agent)
    (s : Option String) (lic : LicenseEntry)
    (hf : a.licensed_ips.find? (fun l => l.ip_id = s) = some lic) :
    countMint (create_remix env now a s).2.2 = 0 := by
  unfold create_remix
  rw [remix_license_step_found env now a s lic hf]
  cases hr : lic.license_tokens with
  | nil => simp [countMint]
  | cons t ts =>
    have h0 := (remix_apply_step_trace env now a s t).1
    rcases hs : remix_apply_step env now a s t with ⟨res, a₂, cs₂⟩
    rw [hs] at h0
    simp only at h0
    simpa [hs, countMint_append, countMint] using h0

/-- `create_remix` with no pre-existing licence mints exactly once, and
the mint call is the first call issued. -/
theorem create_remix_countMint_not_found (env : Env) (now : Nat) (a : Agent)
    (s : Option String)
    (hf : a.licensed_ips.find? (fun l => l.ip_id = s) = none) :
    (countMint (create_remix env now a s).2.2 = 1)
    ∧ ((create_remix env now a s).2.2.head? = some (.mint s 1 a.idol_id)) := by
  obtain ⟨htr, herr, hok⟩ := remix_license_step_not_found env now a s hf
  unfold create_remix
  rcases hl : remix_license_step env now a s with ⟨res, a₁, cs₁⟩
  rw [hl] at htr
  simp only at htr
  subst htr
  cases res with
  | error e => simp [countMint]
  | ok t =>
    have h0 := (remix_apply_step_trace env now a₁ s t).1
    rcases hs : remix_apply_step env now a₁ s t with ⟨res₂, a₂, cs₂⟩
    rw [hs] at h0
    simp only at h0
    simpa [hs, countMint_append, countMint] using h0

/-- Full equation of the license step when no entry matches and the
mint succeeds. -/
theorem remix_license_step_ok_eq (env : Env) (now : Nat) (a : Agent)
    (s : Option String) (r : MintResult)
    (hf : a.licensed_ips.find? (fun l => l.ip_id = s) = none)
    (hm : env.mintLicense s 1 a.idol_id = .ok r) :
    remix_license_step env now a s
      = (match r.license_token_ids with
         | [] => (.error "IndexError: list index out of range",
                  { a with licensed_ips :=
                      a.licensed_ips ++ [⟨s, r.license_token_ids, now⟩] },
                  [Call.mint s 1 a.idol_id])
         | t :: _ => (.ok t,
                  { a with licensed_ips :=
                      a.licensed_ips ++ [⟨s, r.license_token_ids, now⟩] },
                  [Call.mint s 1 a.idol_id])) := by
  cases hr : r.license_token_ids with
  | nil => simp [remix_license_step, license_external_ip, hf, hm, hr]
  | cons t ts => simp [remix_license_step, license_external_ip, hf, hm, hr]

/-- When the apply/upload/register half raises, the agent state it
returns is the state it was given: nothing was appended. -/
theorem remix_apply_step_error_state (env : Env) (now : Nat) (a : Agent)
    (s : Option String) (t : String) (e : String)
    (herr : (remix_apply_step env now a s t).1 = .error e) :
    (remix_apply_step env now a s t).2.1 = a := by
  unfold remix_apply_step at *
  cases ha : env.applyStyle a.idol_id s with
  | error e' => simp [ha]
  | ok rc =>
    cases hu : env.uploadJson rc.metadata with
    | error e' => simp [ha, hu]
    | ok ih =>
      cases hd : env.createDerivative a.idol_id rc.ip_id (some [t]) with
      | error e' => simp [ha, hu, hd]
      | ok d => simp [ha, hu, hd] at herr

/-- When `create_remix` raises after a successful mint on an unlicensed
style IP, the minted entry stays in `licensed_ips` and
`created_derivatives` is unchanged. -/
theorem create_remix_error_state (env : Env) (now : Nat) (a : Agent)
    (s : Option String) (r : MintResult) (e : String)
    (hf : a.licensed_ips.find? (fun l => l.ip_id = s) = none)
    (hm : env.mintLicense s 1 a.idol_id = .ok r)
    (herr : (create_remix env now a s).1 = .error e) :
    (create_remix env now a s).2.1
      = { a with licensed_ips :=
            a.licensed_ips ++ [⟨s, r.license_token_ids, now⟩] } := by
  have heq := remix_license_step_ok_eq env now a s r hf hm
  cases hr : r.license_token_ids with
  | nil =>
    rw [hr] at heq
    simp only at heq
    simp [create_remix, heq]
  | cons t ts =>
    rw [hr] at heq
    simp only at heq
    rcases hs : remix_apply_step env now
        { a with licensed_ips := a.licensed_ips ++ [⟨s, t :: ts, now⟩] } s t
        with ⟨res₂, a₂, cs₂⟩
    have hgoal : (create_remix env now a s).2.1 = a₂ := by
      simp [create_remix, heq, hs]
    rw [hgoal]
    cases res₂ with
    | ok d =>
      have : (create_remix env now a s).1 = .ok d := by
        simp [create_remix, heq, hs]
      rw [this] at herr
      cases herr
    | error e₂ =>
      have h2 := remix_apply_step_error_state env now
        { a with licensed_ips := a.licensed_ips ++ [⟨s, t :: ts, now⟩] } s t e₂
        (by rw [hs])
      rw [hs] at h2
      simpa using h2

/-- Every derivative registration inside `create_remix` uses exactly the
license token obtained by the license step (no-prior-license case). -/
theorem create_remix_token_not_found (env : Env) (now : Nat) (a : Agent)
    (s : Option String) (r : MintResult) (t : String) (ts : List String)
    (hf : a.licensed_ips.find? (fun l => l.ip_id = s) = none)
    (hm : env.mintLicense s 1 a.idol_id = .ok r)
    (hr : r.license_token_ids = t :: ts) :
    ∀ p c toks, Call.createDeriv p c toks ∈ (create_remix env now a s).2.2 →
      toks = some [t] := by
  have heq := remix_license_step_ok_eq env now a s r hf hm
  rw [hr] at heq
  simp only at heq
  intro p c toks hmem
  have htrace := (remix_apply_step_trace env now
    { a with licensed_ips :=
        a.licensed_ips ++ [⟨s, t :: ts, now⟩] } s t).2.2
  rcases hs : remix_apply_step env now
      { a with licensed_ips := a.licensed_ips ++ [⟨s, t :: ts, now⟩] } s t
      with ⟨res₂, a₂, cs₂⟩
  rw [hs] at htrace
  simp only at htrace
  rw [show (create_remix env now a s).2.2 = Call.mint s 1 a.idol_id :: cs₂ by
    simp [create_remix, heq, hs]] at hmem
  rcases List.mem_cons.mp hmem with h | h
  · cases h
  · exact htrace p c toks h

/-- Every derivative registration inside `create_remix` uses exactly the
first token of the matching licence entry (prior-license case). -/
theorem create_remix_token_found (env : Env) (now : Nat) (a : Agent)
    (s : Option String) (lic : LicenseEntry) (t : String) (ts : List String)
    (hf : a.licensed_ips.find? (fun l => l.ip_id = s) = some lic)
    (hr : lic.license_tokens = t :: ts) :
    ∀ p c toks, Call.createDeriv p c toks ∈ (create_remix env now a s).2.2 →
      toks = some [t] := by
  have heq := remix_license_step_found env now a s lic hf
  rw [hr] at heq
  simp only at heq
  intro p c toks hmem
  have htrace := (remix_apply_step_trace env now a s t).2.2
  rcases hs : remix_apply_step env now a s t with ⟨res₂, a₂, cs₂⟩
  rw [hs] at htrace
  simp only at htrace
  rw [show (create_remix env now a s).2.2 = cs₂ by
    simp [create_remix, heq, hs]] at hmem
  exact htrace p c toks hmem

/-- `execute_task` on a `create_remix` task dispatches to
`create_remix` and wraps its outcome. -/
theorem execute_task_remix (env : Env) (now : Nat) (a : Agent) (task : Task)
    (ht : task.type? = some "create_remix") :
    (execute_task env now a task).1
      = (match (create_remix env now a task.style_ip_id?).1 with
         | .error e => TaskResult.error e
         | .ok r => TaskResult.success (.remix r)) := by
  rcases hc : create_remix env now a task.style_ip_id? with ⟨res, a', cs⟩
  cases res <;> simp [execute_task, execute_task_body, ht, hc]

/-! ### Claim theorems -/

/-- C9: `get_metrics` is a pure read (a function of the agent state and
the current time, returning a `Metrics` record and nothing else) whose
fields are exactly the agent id, the active flag, `created_at`,
`last_activity`, the current queue depth, the current history length,
and `now - created_at`. -/
theorem C9_get_metrics (a : Agent) (now : Nat) :
    ((a.get_metrics now).agent_id = a.agent_id)
    ∧ ((a.get_metrics now).is_active = a.is_active)
    ∧ ((a.get_metrics now).created_at = a.created_at)
    ∧ ((a.get_metrics now).last_activity = a.last_activity)
    ∧ ((a.get_metrics now).tasks_in_queue = a.tasks_queue.length)
    ∧ ((a.get_metrics now).tasks_executed = a.execution_history.length)
    ∧ ((a.get_metrics now).uptime_seconds = now - a.created_at) :=
  ⟨rfl, rfl, rfl, rfl, rfl, rfl, rfl⟩

/-- C2: after `stop`, the loop exits without dequeuing anything, for any
number of loop wake-ups and any tasks enqueued after the stop; the
pending tasks stay in the queue and `tasks_in_queue` still counts
them. -/
theorem C2_stop_halts_loop (env : Env) (times : List Nat) (now : Nat)
    (a : Agent) (new : List Task) :
    (runLoop env times (enqueueAll a.stop new) = (enqueueAll a.stop new, []))
    ∧ ((enqueueAll a.stop new).tasks_queue = a.tasks_queue ++ new)
    ∧ (((enqueueAll a.stop new).get_metrics now).tasks_in_queue
        = a.tasks_queue.length + new.length) := by
  obtain ⟨e1, e2, e3, e4, e5, e6, e7⟩ := enqueueAll_spec new a.stop
  refine ⟨runLoop_inactive env times _ ?_, ?_, ?_⟩
  · rw [e2]
    rfl
  · rw [e1]
    rfl
  · show (enqueueAll a.stop new).tasks_queue.length = _
    rw [e1]
    simp [Agent.stop]

/-- C4: `claim_accumulated_royalties` with no tracked derivatives
returns the `no_derivatives` record with claimed amount 0, touching
neither the agent state nor any collaborator; with tracked derivatives
it issues exactly one royalty-claim call for the idol identity over
all tracked derivative ip ids and passes the claim outcome (success or
raised error) through. -/
theorem C4_claim_royalties (env : Env) (a : Agent) :
    (a.created_derivatives = [] →
      claim_accumulated_royalties env a
        = (.ok (RoyaltyOutcome.noDerivatives 0), a, []))
    ∧ (a.created_derivatives ≠ [] →
      ((claim_accumulated_royalties env a).2.2
          = [Call.claim a.idol_id (a.created_derivatives.map (·.ip_id))])
      ∧ ((claim_accumulated_royalties env a).2.1 = a)
      ∧ (∀ r, env.claimRoyalties a.idol_id (a.created_derivatives.map (·.ip_id))
            = .ok r →
          (claim_accumulated_royalties env a).1 = .ok (.result r))
      ∧ (∀ e, env.claimRoyalties a.idol_id (a.created_derivatives.map (·.ip_id))
            = .error e →
          (claim_accumulated_royalties env a).1 = .error e)) := by
  constructor
  · intro h
    simp [claim_accumulated_royalties, h]
  · intro h
    refine ⟨?_, ?_, ?_, ?_⟩
    · cases hc : env.claimRoyalties a.idol_id (a.created_derivatives.map (·.ip_id)) <;>
        simp [claim_accumulated_royalties, h, hc]
    · exact claim_accumulated_royalties_state env a
    · intro r hc
      simp [claim_accumulated_royalties, h, hc]
    · intro e hc
      simp [claim_accumulated_royalties, h, hc]

/-- C4 witness: with no derivatives the short-circuit record is
returned and no call is made; with one derivative, one claim call is
made for ip-1 over child d-1. -/
theorem C4_claim_royalties_witness :
    (claim_accumulated_royalties goodEnv agent0
      = (.ok (RoyaltyOutcome.noDerivatives 0), agent0, []))
    ∧ ((claim_accumulated_royalties goodEnv derivAgent).2.2
        = [Call.claim "ip-1" ["d-1"]]) :=
  ⟨(C4_claim_royalties goodEnv agent0).1 rfl,
   ((C4_claim_royalties goodEnv derivAgent).2 (by decide)).1⟩

/-- C6 counterexample: `add_task` on a task with no `type` key does not
return cleanly — the eagerly evaluated f-string of the debug log raises
`KeyError` — although the task has already been enqueued.  This refutes
the claim that `add_task` returns without error regardless of the task
contents. -/
theorem C6_counterexample :
    ((agent0.add_task { extra := 42 }).2 ≠ none)
    ∧ ((agent0.add_task { extra := 42 }).1.tasks_queue
        = [{ extra := 42 }]) := by
  constructor
  · decide
  · decide

/-- C6 (amended): `add_task` always enqueues the task at the back of the
queue, and it returns without error exactly when the task has a `type`
key; when the key is absent a `KeyError` is raised from the debug-log
f-string at enqueue time (after the task is already enqueued). -/
theorem C6_add_task_amended (a : Agent) (task : Task) :
    ((a.add_task task).1 = { a with tasks_queue := a.tasks_queue ++ [task] })
    ∧ ((a.add_task task).2 = none ↔ task.type?.isSome = true)
    ∧ (task.type? = none → (a.add_task task).2 = some "KeyError: type") := by
  refine ⟨add_task_fst a task, ?_, ?_⟩
  · cases h : task.type? <;> simp [Agent.add_task, h]
  · intro h
    simp [Agent.add_task, h]

/-- C6 amended witness: a task without a `type` key is enqueued yet
reported via the raised `KeyError`. -/
theorem C6_add_task_amended_witness :
    ((agent0.add_task { extra := 42 }).1
        = { agent0 with tasks_queue := agent0.tasks_queue ++ [{ extra := 42 }] })
    ∧ ((agent0.add_task { extra := 42 }).2 = some "KeyError: type") :=
  ⟨(C6_add_task_amended agent0 { extra := 42 }).1,
   (C6_add_task_amended agent0 { extra := 42 }).2.2 rfl⟩

/-- C7: a task whose type is none of the four known kinds (including a
missing type) makes `execute_task` return the error record whose
message names the unknown type (Python `str` of the value); the state
is unchanged, no collaborator is called, and no exception escapes
(`execute_task` is total). -/
theorem C7_unknown_task_type (env : Env) (now : Nat) (a : Agent) (task : Task)
    (h1 : task.type? ≠ some "generate_content")
    (h2 : task.type? ≠ some "license_ip")
    (h3 : task.type? ≠ some "create_remix")
    (h4 : task.type? ≠ some "claim_royalties") :
    execute_task env now a task
      = (TaskResult.error ("Unknown task type: " ++ pyStr task.type?), a, []) := by
  simp [execute_task, execute_task_body, h1, h2, h3, h4]

/-- C7 witness: a task with no `type` key is reported as
`Unknown task type: None` with the agent state untouched. -/
theorem C7_unknown_task_type_witness :
    execute_task downEnv 3 agent0 { extra := 7 }
      = (TaskResult.error "Unknown task type: None", agent0, []) :=
  C7_unknown_task_type downEnv 3 agent0 { extra := 7 }
    (by decide) (by decide) (by decide) (by decide)

theorem lastN_eviction {h : List α} (x : α) (hlen : h.length = 100) :
    lastN 100 (h ++ [x]) = h.drop 1 ++ [x] := by
  unfold lastN
  have hl : (h ++ [x]).length - 100 = 1 := by simp [hlen]
  rw [hl, List.drop_append_eq_append_drop, hlen]
  simp

/-- C1: after every completed loop iteration the history holds at most
100 entries; an append that would exceed 100 evicts the oldest entry;
and draining 101 queued tasks from a fresh history leaves exactly the
entries of tasks 2 through 101, in their original order. -/
theorem C1_history_capacity :
    (∀ (env : Env) (now : Nat) (a : Agent),
      a.execution_history.length ≤ 100 →
      (loopStep env now a).1.execution_history.length ≤ 100)
    ∧ (∀ (env : Env) (now : Nat) (a : Agent) (task : Task) (rest : List Task),
      a.tasks_queue = task :: rest → a.execution_history.length = 100 →
      (loopStep env now a).1.execution_history
        = a.execution_history.drop 1 ++
          [⟨task, (execute_task env now { a with tasks_queue := rest } task).1,
            now⟩])
    ∧ (∀ (env : Env) (times : List Nat) (ts : List Task) (a : Agent),
      a.is_active = true → a.execution_history = [] → a.tasks_queue = ts →
      ts.length = 101 → times.length = 101 →
      (runLoop env times a).1.execution_history.map (·.task) = ts.drop 1) := by
  refine ⟨?_, ?_, ?_⟩
  · intro env now a hlen
    cases hq : a.tasks_queue with
    | nil => rw [loopStep_empty env now a hq]; exact hlen
    | cons task rest =>
      rw [(loopStep_cons env now a task rest hq).2.2.2.2.2.1, length_lastN]
      omega
  · intro env now a task rest hq hlen
    rw [(loopStep_cons env now a task rest hq).2.2.2.2.2.1,
      lastN_eviction _ hlen]
  · intro env times ts a hact hh hq h101 ht101
    have hd := runLoop_drain env times a hact (by rw [hh]; simp)
      (by rw [hq, h101, ht101])
    rw [hd.2.2, hh, hq]
    simp only [List.map_nil, List.nil_append]
    rw [show lastN 100 ts = ts.drop 1 by unfold lastN; rw [h101]]

/-- C1 witness: a fresh active agent with 101 queued tasks, run for 101
iterations, retains exactly tasks 2 through 101 in order. -/
theorem C1_history_capacity_witness :
    (runLoop downEnv times101 (activeAgent tasks101)).1.execution_history.map
        (·.task)
      = tasks101.drop 1 :=
  C1_history_capacity.2.2 downEnv times101 tasks101 (activeAgent tasks101)
    rfl rfl rfl (by simp [tasks101]) (by simp [times101])

/-- C3: when the executed task yields an error result (any handler
exception is converted by `execute_task` into the
`{status: error, error: msg}` record), the loop records that entry,
keeps the remaining queue, stays active, and proceeds with the next
iteration; running the loop never changes the active flag, so it can
exit only once `stop` has cleared it. -/
theorem C3_handler_failure_loop_survives (env : Env) (now : Nat)
    (times : List Nat) (a : Agent) (task : Task) (rest : List Task) (e : String)
    (hact : a.is_active = true) (hq : a.tasks_queue = task :: rest)
    (hfail : (execute_task env now { a with tasks_queue := rest } task).1
      = TaskResult.error e) :
    ((loopStep env now a).1.is_active = true)
    ∧ ((loopStep env now a).1.tasks_queue = rest)
    ∧ ((loopStep env now a).1.execution_history
        = lastN 100 (a.execution_history ++ [⟨task, TaskResult.error e, now⟩]))
    ∧ (runLoop env (now :: times) a
        = ((runLoop env times (loopStep env now a).1).1,
           (loopStep env now a).2
             ++ (runLoop env times (loopStep env now a).1).2))
    ∧ (∀ ts' : List Nat, (runLoop env ts' a).1.is_active = true) := by
  obtain ⟨s1, s2, s3, s4, s5, s6, s7, s8⟩ := loopStep_cons env now a task rest hq
  refine ⟨by rw [s2, hact], s1, ?_, runLoop_active env now times a hact, ?_⟩
  · rw [s6, hfail]
  · intro ts'
    rw [runLoop_is_active env ts' a, hact]

/-- C3 witness: a `license_ip` task against a failing blockchain
collaborator is recorded as an error entry and the loop keeps going. -/
theorem C3_handler_failure_loop_survives_witness :
    ((loopStep downEnv 5 (activeAgent [licenseTask])).1.is_active = true)
    ∧ ((loopStep downEnv 5 (activeAgent [licenseTask])).1.tasks_queue = [])
    ∧ ((loopStep downEnv 5 (activeAgent [licenseTask])).1.execution_history
      = lastN 100 ((activeAgent [licenseTask]).execution_history ++
          [⟨licenseTask, TaskResult.error "service unavailable", 5⟩]))
    ∧ (runLoop downEnv [5, 6] (activeAgent [licenseTask])
        = ((runLoop downEnv [6]
            (loopStep downEnv 5 (activeAgent [licenseTask])).1).1,
           (loopStep downEnv 5 (activeAgent [licenseTask])).2
             ++ (runLoop downEnv [6]
                  (loopStep downEnv 5 (activeAgent [licenseTask])).1).2))
    ∧ (∀ ts' : List Nat,
        (runLoop downEnv ts' (activeAgent [licenseTask])).1.is_active = true) :=
  C3_handler_failure_loop_survives downEnv 5 [6] (activeAgent [licenseTask])
    licenseTask [] "service unavailable" rfl rfl (by decide)

/-- C5: `create_remix` on a style IP with no matching `licensed_ips`
entry issues exactly one mint call, as the very first collaborator
call, and any derivative registration it performs uses the first
minted token; on a style IP whose licence entry exists (first match by
ip id) it issues zero mint calls and any derivative registration uses
that entry's first licence token. -/
theorem C5_create_remix_license_reuse (env : Env) (now : Nat) (a : Agent)
    (s : Option String) :
    ((a.licensed_ips.find? (fun l => l.ip_id = s) = none →
      (countMint (create_remix env now a s).2.2 = 1)
      ∧ ((create_remix env now a s).2.2.head? = some (Call.mint s 1 a.idol_id))
      ∧ (∀ r t ts, env.mintLicense s 1 a.idol_id = .ok r →
          r.license_token_ids = t :: ts →
          ∀ p c toks,
            Call.createDeriv p c toks ∈ (create_remix env now a s).2.2 →
            toks = some [t])))
    ∧ (∀ lic, a.licensed_ips.find? (fun l => l.ip_id = s) = some lic →
      (countMint (create_remix env now a s).2.2 = 0)
      ∧ (∀ t ts, lic.license_tokens = t :: ts →
          ∀ p c toks,
            Call.createDeriv p c toks ∈ (create_remix env now a s).2.2 →
            toks = some [t])) := by
  constructor
  · intro hf
    obtain ⟨hc, hh⟩ := create_remix_countMint_not_found env now a s hf
    exact ⟨hc, hh, fun r t ts hm hr =>
      create_remix_token_not_found env now a s r t ts hf hm hr⟩
  · intro lic hf
    exact ⟨create_remix_countMint_found env now a s lic hf,
      fun t ts hr => create_remix_token_found env now a s lic t ts hf hr⟩

/-- C5 witness: with no prior licence one mint happens first and the
minted token tok-1 is the one registered with; with a prior licence no
mint happens and the stored token tok-9 is registered with. -/
theorem C5_create_remix_license_reuse_witness :
    ((countMint (create_remix goodEnv 1 agent0 (some "style-7")).2.2 = 1)
      ∧ ((create_remix goodEnv 1 agent0 (some "style-7")).2.2.head?
          = some (Call.mint (some "style-7") 1 "ip-1")))
    ∧ ((countMint (create_remix goodEnv 1 licAgent (some "style-7")).2.2 = 0)
      ∧ (∀ p c toks,
          Call.createDeriv p c toks
            ∈ (create_remix goodEnv 1 licAgent (some "style-7")).2.2 →
          toks = some ["tok-9"])) := by
  constructor
  · have h := (C5_create_remix_license_reuse goodEnv 1 agent0
      (some "style-7")).1 (by decide)
    exact ⟨h.1, h.2.1⟩
  · have h := (C5_create_remix_license_reuse goodEnv 1 licAgent
      (some "style-7")).2 ⟨some "style-7", ["tok-9"], 0⟩ (by decide)
    exact ⟨h.1, h.2 "tok-9" [] rfl⟩

/-- C8 counterexample: enqueueing 101 tasks via `add_task`, starting the
agent and draining the queue leaves 100 history entries, not 101 — the
oldest entry was evicted by the 100-entry cap, so the drain does NOT
produce exactly N entries for every N. -/
theorem C8_counterexample :
    ((runLoop downEnv times101
        ((enqueueAll agent0 tasks101).start 0)).1.execution_history.length
      = 100)
    ∧ ¬((runLoop downEnv times101
        ((enqueueAll agent0 tasks101).start 0)).1.execution_history.length
      = tasks101.length) := by
  obtain ⟨e1, e2, e3, e4, e5, e6, e7⟩ := enqueueAll_spec tasks101 agent0
  have h101 : tasks101.length = 101 := by simp [tasks101]
  have hA_hist : ((enqueueAll agent0 tasks101).start 0).execution_history
      = [] := by
    simp only [Agent.start]
    rw [e3]
    rfl
  have hA_queue : ((enqueueAll agent0 tasks101).start 0).tasks_queue
      = tasks101 := by
    simp only [Agent.start]
    rw [e1]
    rfl
  have hd := runLoop_drain downEnv times101 ((enqueueAll agent0 tasks101).start 0)
    rfl (by rw [hA_hist]; simp) (by rw [hA_queue, h101]; simp [times101])
  have hmap := hd.2.2
  rw [hA_hist, hA_queue] at hmap
  simp only [List.map_nil, List.nil_append] at hmap
  have hlen : (runLoop downEnv times101
      ((enqueueAll agent0 tasks101).start 0)).1.execution_history.length
      = 100 := by
    have h2 := congrArg List.length hmap
    rw [List.length_map, length_lastN, h101] at h2
    simpa using h2
  exact ⟨hlen, by rw [hlen, h101]; omega⟩

/-- C8 (amended): enqueueing N tasks via `add_task` on a fresh agent,
starting it and draining the queue empties the queue and leaves one
history entry per task for the LAST min(N, 100) enqueued tasks, in
FIFO enqueue order; in particular for N at most 100 the history holds
exactly N entries, one per distinct enqueued task, in order (the
original claim holds only up to the 100-entry history cap). -/
theorem C8_drain_amended (env : Env) (times : List Nat) (ts : List Task)
    (a : Agent) (now : Nat)
    (hh : a.execution_history = []) (hq : a.tasks_queue = [])
    (hlen : times.length = ts.length) :
    ((runLoop env times ((enqueueAll a ts).start now)).1.execution_history.map
        (·.task) = lastN 100 ts)
    ∧ ((runLoop env times ((enqueueAll a ts).start now)).1.tasks_queue = [])
    ∧ (ts.length ≤ 100 →
        ((runLoop env times ((enqueueAll a ts).start now)).1.execution_history.map
          (·.task) = ts)
        ∧ ((runLoop env times
            ((enqueueAll a ts).start now)).1.execution_history.length
          = ts.length)) := by
  obtain ⟨e1, e2, e3, e4, e5, e6, e7⟩ := enqueueAll_spec ts a
  have hA_hist : ((enqueueAll a ts).start now).execution_history = [] := by
    simp [Agent.start, e3, hh]
  have hA_queue : ((enqueueAll a ts).start now).tasks_queue = ts := by
    simp [Agent.start, e1, hq]
  have hd := runLoop_drain env times ((enqueueAll a ts).start now)
    rfl (by rw [hA_hist]; simp) (by rw [hA_queue, hlen])
  have hmap : (runLoop env times
      ((enqueueAll a ts).start now)).1.execution_history.map (·.task)
      = lastN 100 ts := by
    rw [hd.2.2, hA_hist, hA_queue]
    simp
  refine ⟨hmap, hd.1, ?_⟩
  intro h100
  have hts : (runLoop env times
      ((enqueueAll a ts).start now)).1.execution_history.map (·.task) = ts := by
    rw [hmap, lastN_eq_self h100]
  refine ⟨hts, ?_⟩
  have h2 := congrArg List.length hts
  rw [List.length_map] at h2
  exact h2

/-- C8 witness: two tasks enqueued before start drain to exactly two
history entries carrying those tasks in enqueue order. -/
theorem C8_drain_amended_witness :
    ((runLoop downEnv [0, 1]
        ((enqueueAll agent0 [noopTask 0, noopTask 1]).start 0)).1.execution_history.map
        (·.task) = lastN 100 [noopTask 0, noopTask 1])
    ∧ ((runLoop downEnv [0, 1]
        ((enqueueAll agent0 [noopTask 0, noopTask 1]).start 0)).1.tasks_queue
      = [])
    ∧ ((runLoop downEnv [0, 1]
        ((enqueueAll agent0 [noopTask 0, noopTask 1]).start 0)).1.execution_history.map
        (·.task) = [noopTask 0, noopTask 1])
    ∧ ((runLoop downEnv [0, 1]
        ((enqueueAll agent0 [noopTask 0, noopTask 1]).start 0)).1.execution_history.length
      = 2) := by
  have h := C8_drain_amended downEnv [0, 1] [noopTask 0, noopTask 1] agent0 0
    rfl rfl rfl
  have h2 := h.2.2 (by simp)
  exact ⟨h.1, h.2.1, h2.1, h2.2⟩

/-- C10: when `create_remix` on an unlicensed style IP mints
successfully but a later step raises, the minted licence entry stays
appended to `licensed_ips`, `created_derivatives` is unchanged, the
task is answered with the error record, and a retried `create_remix`
for the same style IP (under any collaborator environment) performs
zero further mint calls. -/
theorem C10_remix_no_rollback (env env₂ : Env) (now now₂ : Nat) (a : Agent)
    (s : Option String) (r : MintResult) (e : String) (task : Task)
    (hf : a.licensed_ips.find? (fun l => l.ip_id = s) = none)
    (hm : env.mintLicense s 1 a.idol_id = .ok r)
    (herr : (create_remix env now a s).1 = .error e)
    (htask : task.type? = some "create_remix")
    (hstyle : task.style_ip_id? = s) :
    ((create_remix env now a s).2.1.licensed_ips
        = a.licensed_ips ++ [⟨s, r.license_token_ids, now⟩])
    ∧ ((create_remix env now a s).2.1.created_derivatives
        = a.created_derivatives)
    ∧ ((execute_task env now a task).1 = TaskResult.error e)
    ∧ (countMint (create_remix env₂ now₂ (create_remix env now a s).2.1 s).2.2
        = 0) := by
  have hstate := create_remix_error_state env now a s r e hf hm herr
  refine ⟨by rw [hstate], by rw [hstate], ?_, ?_⟩
  · rw [execute_task_remix env now a task htask, hstyle, herr]
  · have hfind : ((create_remix env now a s).2.1).licensed_ips.find?
        (fun l => l.ip_id = s)
        = some ⟨s, r.license_token_ids, now⟩ := by
      rw [hstate]
      show (a.licensed_ips ++
        [(⟨s, r.license_token_ids, now⟩ : LicenseEntry)]).find? _ = _
      rw [List.find?_append, hf]
      simp
    exact create_remix_countMint_found env₂ now₂ _ s _ hfind

/-- C10 witness: mint succeeds with tok-1, the style mixer raises, the
licence entry survives, no derivative is recorded, the task is answered
with the error record, and the retry under a healthy environment mints
nothing. -/
theorem C10_remix_no_rollback_witness :
    ((create_remix mintOnlyEnv 2 agent0 (some "style-7")).2.1.licensed_ips
        = agent0.licensed_ips ++ [⟨some "style-7", ["tok-1"], 2⟩])
    ∧ ((create_remix mintOnlyEnv 2 agent0 (some "style-7")).2.1.created_derivatives
        = agent0.created_derivatives)
    ∧ ((execute_task mintOnlyEnv 2 agent0 remixTask).1
        = TaskResult.error "style service down")
    ∧ (countMint (create_remix goodEnv 3
        (create_remix mintOnlyEnv 2 agent0 (some "style-7")).2.1
        (some "style-7")).2.2 = 0) :=
  C10_remix_no_rollback mintOnlyEnv goodEnv 2 3 agent0 (some "style-7")
    ⟨["tok-1"]⟩ "style service down" remixTask rfl rfl rfl rfl rfl

end IdollyAgent
